import Mathlib

/-!
Verification development for the Random Album Discovery Engine of the
`streamlit_tests` repository (module `services/random_album.py`, with
helpers from `services/spotify_service.py`, `services/lastfm_service.py`
and `services/bandcamp_service.py`).

The Python functions are shallowly embedded as total Lean functions.
External collaborators (the Spotify and Last.fm API clients, the wall
database, the Bandcamp scraper, and the `fuzzywuzzy` library) are
modelled as explicit capability records: every call that may raise an
exception in Python returns an `Option` (with `none` for the exception
path), exactly where the Python code catches exceptions and converts
them to `None` / `[]`. Randomness (`random.choice`, `random.shuffle`)
is modelled by an explicit stream of draws (`List Nat`): `choice`
consumes one draw and indexes the list modulo its length,
`random.shuffle` is a Fisher-Yates pass consuming one draw per step.
The floating-point keyword weights of the genre classifier (all
multiples of 0.1, summed against thresholds 1.5) are scaled by 10 to
naturals, which is exact for all values occurring in the table.
-/

/-- Python whitespace (the set recognised by `str.split()`, `str.strip()`
and `\s` in `re` for text patterns), by code point. -/
def isPySpace (c : Char) : Bool :=
  [9, 10, 11, 12, 13, 28, 29, 30, 31, 32, 133, 160, 5760,
   8192, 8193, 8194, 8195, 8196, 8197, 8198, 8199, 8200, 8201, 8202,
   8232, 8233, 8239, 8287, 12288].contains c.toNat

/-- Characters kept by `re.sub(r'[^a-z0-9\s]', '', name)`:
lowercase ASCII letters, ASCII digits, and whitespace. -/
def isKeep (c : Char) : Bool :=
  (decide (97 ≤ c.toNat ∧ c.toNat ≤ 122)) ||
  (decide (48 ≤ c.toNat ∧ c.toNat ≤ 57)) || isPySpace c

/-- ASCII model of Python `str.lower()` applied per character
(`'A'..'Z'` map to `'a'..'z'`, everything else is unchanged; the
non-ASCII letters a full Unicode lowering would also change are deleted
by the later `[^a-z0-9\s]` filter in every consumer below). -/
def pyLower (c : Char) : Char :=
  if 65 ≤ c.toNat ∧ c.toNat ≤ 90 then Char.ofNat (c.toNat + 32) else c

/-- Accumulator pass behind `str.split()`: splits on runs of whitespace,
discarding empty pieces. The accumulator holds the current word
reversed. -/
def pyWordsAux : List Char → List Char → List (List Char)
  | [], acc => if acc.isEmpty then [] else [acc.reverse]
  | c :: cs, acc =>
    if isPySpace c then
      if acc.isEmpty then pyWordsAux cs [] else acc.reverse :: pyWordsAux cs []
    else pyWordsAux cs (c :: acc)

/-- Python `s.split()` (no separator argument). -/
def pyWords (cs : List Char) : List (List Char) := pyWordsAux cs []

/-- Python `' '.join(ws)`. -/
def joinWords : List (List Char) → List Char
  | [] => []
  | [w] => w
  | w :: ws => w ++ ' ' :: joinWords ws

/-- Python `s.strip()` (with no argument: strips whitespace from both
ends). -/
def pyStrip (cs : List Char) : List Char :=
  ((cs.dropWhile isPySpace).reverse.dropWhile isPySpace).reverse

/-- Version of `pyStrip` on `String`. -/
def pyStripStr (s : String) : String := String.mk (pyStrip s.data)

/-- Python `pat in s` for strings: contiguous substring test
(the empty pattern is contained in everything). -/
def strContains : List Char → List Char → Bool
  | pat, [] => pat.isEmpty
  | pat, c :: rest => pat.isPrefixOf (c :: rest) || strContains pat rest

/-- Version of `strContains` on `String`: Python `pat in s`. -/
def strIn (pat s : String) : Bool := strContains pat.data s.data

/-- One step of Python `s.replace(pat, '')` with explicit fuel
(the fuel is the length of the remaining text, which bounds the number
of steps; `pat` is nonempty at every call site). -/
def removeAllAux (pat : List Char) : Nat → List Char → List Char
  | 0, l => l
  | _ + 1, [] => []
  | fuel + 1, c :: rest =>
    if pat.isPrefixOf (c :: rest) then
      removeAllAux pat fuel ((c :: rest).drop pat.length)
    else c :: removeAllAux pat fuel rest

/-- Python `s.replace(pat, '')`: delete every (non-overlapping,
left-to-right) occurrence of `pat`. -/
def removeAll (pat : String) (s : String) : String :=
  if pat.data.isEmpty then s
  else String.mk (removeAllAux pat.data s.data.length s.data)

/-- Uppercase hexadecimal digit, as produced by `urllib.parse.quote`. -/
def hexDigitU (n : Nat) : Char :=
  if n < 10 then Char.ofNat (48 + n) else Char.ofNat (55 + n)

/-- UTF-8 bytes of a character (as used by `urllib.parse.quote` for
non-ASCII input). -/
def utf8Bytes (c : Char) : List Nat :=
  let n := c.toNat
  if n < 128 then [n]
  else if n < 2048 then [192 + n / 64, 128 + n % 64]
  else if n < 65536 then [224 + n / 4096, 128 + (n / 64) % 64, 128 + n % 64]
  else [240 + n / 262144, 128 + (n / 4096) % 64, 128 + (n / 64) % 64, 128 + n % 64]

/-- Characters `urllib.parse.quote` leaves unescaped with the default
`safe='/'`: ASCII alphanumerics, `_ . - ~` and `/`. -/
def isQuoteSafe (c : Char) : Bool :=
  (decide (97 ≤ c.toNat ∧ c.toNat ≤ 122)) ||
  (decide (65 ≤ c.toNat ∧ c.toNat ≤ 90)) ||
  (decide (48 ≤ c.toNat ∧ c.toNat ≤ 57)) ||
  ['_', '.', '-', '~', '/'].contains c

/-- Python `urllib.parse.quote(s)` with default arguments. -/
def pyQuote (s : String) : String :=
  String.mk (s.data.flatMap fun c =>
    if isQuoteSafe c then [c]
    else (utf8Bytes c).flatMap fun b => ['%', hexDigitU (b / 16), hexDigitU (b % 16)])

/-- The Last.fm fallback URL built in `random_album.py`:
`f"https://www.last.fm/music/{urllib.parse.quote(artist.replace(' ', '+'))}"`. -/
def lastfmUrlFor (artist : String) : String :=
  "https://www.last.fm/music/" ++
    pyQuote (String.mk (artist.data.map fun c => if c = ' ' then '+' else c))

/-- Python `random.choice(l)` modelled by one draw: index the list by the draw
modulo its length (call sites guarantee the list is nonempty; `dflt`
is only used for the empty list). -/
def rpick {α : Type} (l : List α) (dflt : α) (d : Nat) : α :=
  (l.get? (d % l.length)).getD dflt

/-- Swap two positions of a list (out-of-range indices leave the list
unchanged; call sites stay in range). -/
def lswap {α : Type} (l : List α) (i j : Nat) : List α :=
  match l.get? i, l.get? j with
  | some a, some b => (l.set i b).set j a
  | _, _ => l

/-- Fisher-Yates pass of `random.shuffle`: for `i` from `len-1` down to
`1`, draw `j < i+1` and swap positions `i` and `j`. Each step consumes
one draw (`j` is the draw modulo `i+1`). -/
def pyShuffleAux {α : Type} : List α → Nat → List Nat → List α × List Nat
  | l, 0, ds => (l, ds)
  | l, i + 1, ds =>
    pyShuffleAux (lswap l (i + 1) ((ds.headD 0) % (i + 2))) i ds.tail

/-- Python `random.shuffle(l)` over the draw stream. -/
def pyShuffle {α : Type} (ds : List Nat) (l : List α) : List α × List Nat :=
  pyShuffleAux l (l.length - 1) ds

/-- The rewriting stages of
`services/random_album.py::normalize_artist_name` before whitespace
collapsing: lowercase; strip at most one each of the leading prefixes
`"the "`, `'"'`, `"'"` (in that order, checked on the lowered string
before any other rewriting); replace `&` and `+` by `" and "`; delete
every character that is not a lowercase ASCII letter, digit or
whitespace. -/
def preNormalize (cs : List Char) : List Char :=
  let lowered := cs.map pyLower
  let n1 := if lowered.take 4 = ['t', 'h', 'e', ' '] then lowered.drop 4 else lowered
  let n2 := if n1.take 1 = ['"'] then n1.drop 1 else n1
  let n3 := if n2.take 1 = ['\''] then n2.drop 1 else n2
  let n4 := n3.flatMap fun c => if c = '&' || c = '+' then [' ', 'a', 'n', 'd', ' '] else [c]
  n4.filter isKeep

/-- Core of `normalize_artist_name` on `List Char`: the rewriting stages above
followed by `' '.join(name.split())` and the final `.strip()`. -/
def normalizeChars (cs : List Char) : List Char :=
  pyStrip (joinWords (pyWords (preNormalize cs)))

/-- Embedding of `services/random_album.py::normalize_artist_name`. -/
def normalize_artist_name (s : String) : String :=
  if s = "" then "" else String.mk (normalizeChars s.data)

/-- The three score functions of the `fuzzywuzzy` library used by the
code (`fuzz.ratio`, `fuzz.token_set_ratio`, `fuzz.partial_ratio`).
The library is an external dependency, so the scorers are parameters of
the model; every value is in `[0, 100]` in reality, and the theorems
below either hold for all scorers or use an environment whose scorer
values agree with the real library on the strings actually compared. -/
structure Fuzz where
  ratioFn : String → String → Nat
  tokenSetFn : String → String → Nat
  prFn : String → String → Nat

/-- Python `str.lower()` on a whole string (ASCII model, see `pyLower`). -/
def pyLowerStr (s : String) : String := String.mk (s.data.map pyLower)

/-- Embedding of `services/random_album.py::are_artists_similar`. -/
def are_artists_similar (fz : Fuzz) (artist1 artist2 : String) (threshold : Nat) : Bool :=
  let norm1 := normalize_artist_name artist1
  let norm2 := normalize_artist_name artist2
  if norm1 = norm2 then true
  else
    let contained := strContains norm1.data norm2.data || strContains norm2.data norm1.data
    let fuzzyOk := decide (threshold ≤ fz.ratioFn norm1 norm2) ||
                   decide (threshold ≤ fz.tokenSetFn (pyLowerStr artist1) (pyLowerStr artist2))
    if contained then
      let w1 := pyWords norm1.data
      let w2 := pyWords norm2.data
      if w1.length = 1 && w2.length = 1 then contained
      else if w1.length = 1 || w2.length = 1 then
        let single := if w1.length = 1 then w1.headD [] else w2.headD []
        let multi := if w1.length = 1 then w2 else w1
        if multi.contains single then false else fuzzyOk
      else fuzzyOk
    else fuzzyOk

/-- Embedding of `services/spotify_service.py::clean_artist_name`: delete every
occurrence of the four platform suffixes, then strip. -/
def clean_artist_name (artist_name : String) : String :=
  pyStripStr (removeAll "Single by "
    (removeAll "EP by " (removeAll "Album by " (removeAll " | Spotify" artist_name))))

/-- The weighted metal keyword table of
`services/random_album.py::is_metal_artist`, weights scaled by 10
(2.0 ↦ 20, 1.8 ↦ 18, 1.5 ↦ 15, 1.0 ↦ 10; the score threshold 1.5
becomes 15). -/
def metal_keywords : List (String × Nat) :=
  [("metal", 20), ("heavy metal", 20), ("death metal", 20), ("black metal", 20),
   ("thrash metal", 20), ("power metal", 20), ("folk metal", 20),
   ("symphonic metal", 20), ("doom metal", 20), ("progressive metal", 20),
   ("melodic death metal", 20), ("grindcore", 20), ("goregrind", 20),
   ("deathcore", 20), ("metalcore", 20), ("hardcore", 15), ("post-metal", 20),
   ("avant-garde metal", 20), ("sludge metal", 20), ("stoner metal", 20),
   ("nu metal", 20), ("industrial metal", 20), ("gothic metal", 20),
   ("speed metal", 20), ("glam metal", 18), ("hair metal", 18),
   ("neoclassical metal", 20), ("djent", 20), ("math metal", 20),
   ("alternative metal", 20), ("viking metal", 20), ("pagan metal", 20),
   ("war metal", 20), ("brutal death metal", 20), ("technical death metal", 20),
   ("crust", 18), ("hardcore punk", 15), ("crossover thrash", 20),
   ("grunge", 10), ("extreme metal", 20), ("underground metal", 18),
   ("death", 15), ("black", 15), ("thrash", 15), ("doom", 15), ("power", 15)]

/-- The disqualifying non-metal tag list of `is_metal_artist`. -/
def non_metal_tags : List String :=
  ["pop", "hip hop", "rap", "r&b", "country", "jazz", "blues",
   "classical", "electronic", "dance", "indie", "folk", "acoustic",
   "singer-songwriter", "latin", "reggae", "soul", "funk", "disco"]

/-- Metal score contributed by one (already lowercased) tag: the sum of
the weights of every keyword that is a substring of the tag or that the
tag is a substring of. -/
def tagMetalScore (tag : String) : Nat :=
  (metal_keywords.map fun kw =>
    if strIn kw.1 tag || strIn tag kw.1 then kw.2 else 0).sum

/-- Disqualifying hits contributed by one tag: one per disqualifying
keyword contained in the tag. -/
def tagNonMetalScore (tag : String) : Nat :=
  (non_metal_tags.map fun kw => if strIn kw tag then 1 else 0).sum

/-- The genre-classification core of
`services/random_album.py::is_metal_artist`: lowercase the tags,
accumulate the weighted metal score and the disqualifying hits, and
classify as metal iff `metal_score >= 1.5 and non_metal_score <= 2`
(scores scaled by 10). -/
def classify_tags (tags : List String) : Bool :=
  let tag_names := tags.map pyLowerStr
  decide (15 ≤ (tag_names.map tagMetalScore).sum) &&
  decide ((tag_names.map tagNonMetalScore).sum ≤ 2)

/-- One row of the wall-albums table, as converted to a dict by
`get_random_album_from_wall`. -/
structure WallAlbum where
  id : Nat
  username : String
  url : String
  artist : String
  album_name : String
  cover_url : Option String
  platform : String
  tags : String
  likes : Nat
  timestamp : String

/-- The album dict produced by the Spotify lookups and threaded through
validation and the final discovery payload (keys `artist`, `album`,
`image`, `url`, `release_date`, `total_tracks`, `genres`). -/
structure AlbumData where
  artist : String
  album : String
  image : Option String
  url : String
  release_date : String
  total_tracks : Nat
  genres : List String
deriving DecidableEq

/-- An artist item of a Spotify search response (`name`, `id`,
`genres`). -/
structure SpotifyArtist where
  name : String
  id : String
  genres : List String

/-- An album item of a Spotify `artist_albums` response. -/
structure SpotifyAlbum where
  albumType : String
  name : String
  images : List String
  url : String
  release_date : String
  total_tracks : Nat

/-- An album item of a Spotify album search (only its id is used before
the detail fetch). -/
structure SpotifyAlbumRef where
  id : String

/-- A Spotify `album(id)` detail response. -/
structure SpotifyAlbumDetail where
  name : String
  images : List String
  url : String
  release_date : String
  total_tracks : Nat
  genres : List String

/-- The Spotify client capability (`spotipy.Spotify`). Each operation
returns `none` where the Python call would raise (network error, rate
limit, malformed response); the callers catch those exceptions and
return `None`/`[]`. -/
structure SpotifyClient where
  searchArtistQ : String → Option (List SpotifyArtist)
  searchArtist1 : String → Option (List SpotifyArtist)
  relatedArtists : String → Option (List String)
  artistAlbums : String → Option (List SpotifyAlbum)
  searchAlbums : String → Option (List SpotifyAlbumRef)
  albumDetails : String → Option SpotifyAlbumDetail

/-- One result of `pylast`'s `search_for_album(...).get_next_page()`
as consumed by `search_lastfm_artist`: the album's name and its
artist's name. -/
structure LfmSearchResult where
  artistName : String
  albumName : String

/-- The Last.fm client capability (`pylast.LastFMNetwork`).
`artistTags name` models `get_artist(name).get_top_tags(...)` (the
callers apply their `limit` by `take`); `none` is the exception path.
`topAlbums` models `get_artist(...).get_top_albums(limit=20)` album
names, `similar` models `get_artist(...).get_similar(...)` names, and
`searchAlbum album artist` models `search_for_album(album, artist)`
(`none` = the call raised, `some []` = no results). `pylast`'s
`Artist.get_name()` returns the queried name, which is modelled by
reusing the query string where the code calls it. -/
structure LastfmClient where
  artistTags : String → Option (List String)
  topAlbums : String → Option (List String)
  similar : String → Option (List String)
  searchAlbum : String → String → Option (List LfmSearchResult)

/-- The best match scraped from a Bandcamp search page. -/
structure BandcampResult where
  url : String
  artist : String
  album : String

/-- The posting payload built by `prepare_discovery_for_posting`. -/
structure PostingData where
  url : String
  artist : String
  album : String
  image_url : Option String

/-- The discovery payload returned by `discover_random_album` on
success (`origin`, `discovery`, `bandcamp`, `description`,
`validation`, `posting_data`). -/
structure DiscoveryData where
  originAlbum : WallAlbum
  originArtist : String
  originAlbumName : String
  discovery : AlbumData
  bandcamp : Option BandcampResult
  description : String
  validation : String
  posting : PostingData

/-- The environment of one discovery run: the two optional API clients
(`get_spotify_client()` / `get_lastfm_client()` may return `None` when
unconfigured), the wall store (`none` = the database read raised), the
Bandcamp search (`Except.error` = the call raised or timed out), the
fuzzy scorers, and the logged-in user. -/
structure Env where
  spotify : Option SpotifyClient
  lastfm : Option LastfmClient
  wall : Option (List WallAlbum)
  bandcamp : String → String → Except Unit (Option BandcampResult)
  fz : Fuzz
  currentUser : Option String

/-- Embedding of `services/random_album.py::get_random_album_from_wall`. -/
def get_random_album_from_wall (env : Env) (ds : List Nat) :
    Option WallAlbum × List Nat :=
  match env.wall with
  | none => (none, ds)
  | some [] => (none, ds)
  | some (a :: rest) => (some (rpick (a :: rest) a (ds.headD 0)), ds.tail)

/-- Embedding of `services/random_album.py::is_metal_artist`: fetch the artist's top
15 tags from Last.fm and run the weighted keyword classifier; `False`
if the client is missing or the fetch raises. -/
def is_metal_artist (lfm : Option LastfmClient) (artist_name : String) : Bool :=
  match lfm with
  | none => false
  | some c =>
    match c.artistTags artist_name with
    | none => false
    | some tags => classify_tags (tags.take 15)

/-- The result of `search_lastfm_artist`: corrected artist name, its
lowercased top tags, and the matched album name. -/
structure LfmInfo where
  artist : String
  tags : List String
  album : String

/-- Embedding of `services/random_album.py::search_lastfm_artist`. -/
def search_lastfm_artist (fz : Fuzz) (lc : LastfmClient)
    (album_name artist_name : String) : Option LfmInfo :=
  let clean_artist := pyStripStr (String.mk (artist_name.data.takeWhile fun c => c ≠ '('))
  match lc.searchAlbum album_name clean_artist with
  | none => none
  | some [] =>
    match lc.topAlbums clean_artist with
    | none => none
    | some albums =>
      match (albums.take 20).find? (fun al =>
          decide (70 < fz.prFn (pyLowerStr album_name) (pyLowerStr al))) with
      | none => none
      | some al =>
        match lc.artistTags clean_artist with
        | none => none
        | some tags => some ⟨clean_artist, (tags.take 10).map pyLowerStr, al⟩
  | some (r :: _) =>
    if are_artists_similar fz r.artistName clean_artist 70 = false then none
    else
      match lc.artistTags r.artistName with
      | none => none
      | some tags => some ⟨r.artistName, (tags.take 10).map pyLowerStr, r.albumName⟩

/-- The plain metal keyword list of step 2 of
`validate_and_correct_metal_album`. -/
def simple_metal_keywords : List String :=
  ["metal", "grindcore", "death", "thrash", "crust", "sludge",
   "heavy", "black", "doom", "power", "progressive", "folk metal"]

/-- Embedding of `services/random_album.py::validate_and_correct_metal_album`.
Step 1: accept if the artist already classifies as metal. Step 2: look
the album up on Last.fm; reject if the corrected artist is dissimilar
(threshold 70); accept with the corrected artist if any of its tags
contains a plain metal keyword. Step 3 (reached when the search found
nothing or found no metal keyword): accept unchanged if at least 3 of
up to 8 similar artists classify as metal; otherwise reject. A missing
client accepts unvalidated. -/
def validate_and_correct_metal_album (fz : Fuzz) (lfm : Option LastfmClient)
    (d : AlbumData) : Option AlbumData × Bool :=
  match lfm with
  | none => (some d, true)
  | some lc =>
    if is_metal_artist (some lc) d.artist then (some d, true)
    else
      let step3 : Option AlbumData × Bool :=
        match lc.similar d.artist with
        | none => (none, false)
        | some sims =>
          let cnt := ((sims.take 8).filter fun s => is_metal_artist (some lc) s).length
          if 3 ≤ cnt then (some d, true) else (none, false)
      match search_lastfm_artist fz lc d.album d.artist with
      | some info =>
        if are_artists_similar fz info.artist d.artist 70 = false then (none, false)
        else if simple_metal_keywords.any (fun k => info.tags.any fun t => strIn k t) then
          (some { d with artist := info.artist }, true)
        else step3
      | none => step3

/-- Embedding of `services/random_album.py::filter_related_artists`: drop candidates
that are similar to the base artist at threshold 90, and candidates in
a single-word/multi-word containment relation with it. -/
def filter_related_artists (fz : Fuzz) (related_artists : List String)
    (base_artist : String) : List String :=
  let base_normalized := normalize_artist_name base_artist
  related_artists.filter fun artist =>
    let norm_artist := normalize_artist_name artist
    if are_artists_similar fz base_artist artist 90 then false
    else if strContains base_normalized.data norm_artist.data ||
            strContains norm_artist.data base_normalized.data then
      let words_base := pyWords base_normalized.data
      let words_artist := pyWords norm_artist.data
      if 1 < words_base.length && words_artist.length = 1 then false
      else if 1 < words_artist.length && words_base.length = 1 then
        if words_artist.contains (words_base.headD []) then false else true
      else true
    else true

/-- Embedding of `services/random_album.py::get_precise_spotify_album`: resolve the
artist among the search results by fuzzy score (with a -30 penalty for
single-word-in-multi-word containment), require the best score ≥ 85,
then pick a random non-compilation non-live album. `none` everywhere
the Python returns `None` (including the exception path hit when the
score threshold is met with no recorded best match). -/
def get_precise_spotify_album (fz : Fuzz) (sc : SpotifyClient)
    (artist_name : String) (ds : List Nat) : Option AlbumData × List Nat :=
  match sc.searchArtistQ artist_name with
  | none => (none, ds)
  | some [] => (none, ds)
  | some (it0 :: itrest) =>
    let items := it0 :: itrest
    let step : Option SpotifyArtist × Int → SpotifyArtist → Option SpotifyArtist × Int :=
      fun acc a =>
        let sim0 : Int := fz.ratioFn (pyLowerStr artist_name) (pyLowerStr a.name)
        let sim :=
          if (strContains (pyLowerStr artist_name).data (pyLowerStr a.name).data ||
              strContains (pyLowerStr a.name).data (pyLowerStr artist_name).data) &&
             (pyWords artist_name.data).length = 1 &&
             decide (1 < (pyWords a.name.data).length)
          then sim0 - 30 else sim0
        if acc.2 < sim then (some a, sim) else acc
    let best := items.foldl step (none, 0)
    if best.2 < 85 then (none, ds)
    else
      match best.1 with
      | none => (none, ds)
      | some a =>
        match sc.artistAlbums a.id with
        | none => (none, ds)
        | some [] => (none, ds)
        | some (al0 :: alrest) =>
          let albums := al0 :: alrest
          let valid := albums.filter fun al =>
            (al.albumType ≠ "compilation") &&
            (strIn "live" (pyLowerStr al.name) = false) &&
            (strIn "(live" (pyLowerStr al.name) = false)
          let pick : SpotifyAlbum × List Nat :=
            match valid with
            | [] => (al0, ds)
            | v0 :: _ => (rpick valid v0 (ds.headD 0), ds.tail)
          (some { artist := a.name, album := pick.1.name,
                  image := pick.1.images.head?, url := pick.1.url,
                  release_date := pick.1.release_date,
                  total_tracks := pick.1.total_tracks,
                  genres := a.genres }, pick.2)

/-- Embedding of `services/spotify_service.py::get_random_album_by_artist`: loose
album search by artist query, random pick, then a detail fetch. -/
def get_random_album_by_artist (sc : SpotifyClient) (artist_name : String)
    (ds : List Nat) : Option AlbumData × List Nat :=
  let an := clean_artist_name artist_name
  match sc.searchAlbums an with
  | none => (none, ds)
  | some [] => (none, ds)
  | some (r0 :: rs) =>
    let pick := rpick (r0 :: rs) r0 (ds.headD 0)
    let ds1 := ds.tail
    match sc.albumDetails pick.id with
    | none => (none, ds1)
    | some det =>
      (some { artist := an, album := det.name, image := det.images.head?,
              url := det.url, release_date := det.release_date,
              total_tracks := det.total_tracks, genres := det.genres }, ds1)

/-- Embedding of `services/spotify_service.py::get_related_artists_spotify`. -/
def get_related_artists_spotify (sc : SpotifyClient) (artist_name : String) :
    List String :=
  let an := clean_artist_name artist_name
  match sc.searchArtist1 an with
  | none => []
  | some [] => []
  | some (a :: _) =>
    match sc.relatedArtists a.id with
    | none => []
    | some names => names.take 10

/-- Embedding of `services/lastfm_service.py::get_related_artists_lastfm`
(`get_similar(limit=15)`). -/
def get_related_artists_lastfm (lc : LastfmClient) (artist_name : String) :
    List String :=
  let an := clean_artist_name artist_name
  match lc.similar an with
  | none => []
  | some names => names.take 15

/-- Embedding of `services/random_album.py::prepare_discovery_for_posting`
(defined twice verbatim in the source; the second definition shadows
the first). Priorities: Bandcamp URL, then a Spotify URL, then a
constructed Last.fm URL, then whatever is present. -/
def prepare_discovery_for_posting (d : AlbumData) (bc : Option BandcampResult) :
    PostingData :=
  match bc with
  | some b =>
    if b.url ≠ "" then
      { url := b.url,
        artist := if b.artist ≠ "" then b.artist else d.artist,
        album := if b.album ≠ "" then b.album else d.album,
        image_url := d.image }
    else prepare_rest d
  | none => prepare_rest d
where
  /-- Priorities 2-4 of `prepare_discovery_for_posting`. -/
  prepare_rest (d : AlbumData) : PostingData :=
    if d.url ≠ "" && strIn "open.spotify.com" d.url then
      { url := d.url, artist := d.artist, album := d.album, image_url := d.image }
    else if d.artist ≠ "" then
      { url := lastfmUrlFor d.artist, artist := d.artist, album := d.album,
        image_url := d.image }
    else
      { url := d.url, artist := d.artist, album := d.album, image_url := d.image }

/-- The basic discovery dict built when both Spotify lookups fail
(`# If Spotify fails, create a basic discovery`). -/
def placeholderAlbum (artist : String) : AlbumData :=
  { artist := artist,
    album := "Random album by " ++ artist,
    image := none,
    url := lastfmUrlFor artist,
    release_date := "Unknown",
    total_tracks := 0,
    genres := [] }

/-- Steps 5 of the candidate loop of `discover_random_album`: precise
Spotify lookup, then the loose `get_random_album_by_artist` fallback,
then the Last.fm-URL placeholder. -/
def resolveAlbumData (env : Env) (artist : String) (ds : List Nat) :
    AlbumData × List Nat :=
  match env.spotify with
  | none => (placeholderAlbum artist, ds)
  | some sc =>
    let p := get_precise_spotify_album env.fz sc artist ds
    match p.1 with
    | some d => (d, p.2)
    | none =>
      let q := get_random_album_by_artist sc artist p.2
      match q.1 with
      | some d => (d, q.2)
      | none => (placeholderAlbum artist, q.2)

/-- Step 2 of `discover_random_album` as written in the source: try
Spotify (the catalog provider) first, and only if it returned an empty
list try Last.fm (the tag provider). -/
def findRelated_code (env : Env) (artist_name : String) : List String :=
  let r := match env.spotify with
           | none => []
           | some sc => get_related_artists_spotify sc artist_name
  if r = [] then
    match env.lastfm with
    | none => []
    | some lc => get_related_artists_lastfm lc artist_name
  else r

/-- Modelled from the spec: the `FindRelated` stage of §4.6 of the
specification, which queries the Tag Provider's (Last.fm's)
related-artist capability first and falls back to the Catalog
Provider (Spotify) only if that returned an empty list. Present only
for comparison with `findRelated_code`, the stage as the source
implements it. -/
def findRelated_specModel (env : Env) (artist_name : String) : List String :=
  let t := match env.lastfm with
           | none => []
           | some lc => get_related_artists_lastfm lc artist_name
  if t = [] then
    match env.spotify with
    | none => []
    | some sc => get_related_artists_spotify sc artist_name
  else t

/-- The exhaustion message of `discover_random_album`
(`f"Could not find a valid metal album after {max_attempts} attempts. Try again!"`). -/
def exhaustMsg (maxA : Nat) : String :=
  "Could not find a valid metal album after " ++ toString maxA ++
    " attempts. Try again!"

/-- Assemble the success payload of `discover_random_album`. -/
def mkDiscovery (ralb : WallAlbum) (ban bas : String) (d : AlbumData)
    (bc : Option BandcampResult) (chosen : String) (validation : String) :
    DiscoveryData :=
  { originAlbum := ralb, originArtist := ban, originAlbumName := bas,
    discovery := d, bandcamp := bc,
    description := "Based on '" ++ bas ++ "' by " ++ ban ++
      " → Related artist: " ++ chosen,
    validation := validation,
    posting := prepare_discovery_for_posting d bc }

/-- The outcome of the candidate loop: the success payload or the
exhaustion message, the number of loop iterations executed (the
`attempts` counter), and the remaining draw stream. -/
structure LoopOut where
  result : Option DiscoveryData
  err : Option String
  attempts : Nat
  draws : List Nat

/-- The `while attempts < max_attempts and filtered_artists` candidate
loop of `discover_random_album`: pick a random candidate, remove it
from the pool, resolve an album for it (`resolveAlbumData`), then —
with a Last.fm client — validate and either return the success payload
(validation note "✅ Validated as metal") or continue; without a
Last.fm client, return the first resolved candidate unvalidated
(validation note "⚠️ Could not validate (Last.fm not available)").
The Bandcamp lookup is wrapped in try/except: an error leaves the
`bandcamp` field `none`. Saving to the discovery-history store is an
external write-only collaborator and does not affect the returned
value, so it is not modelled. -/
def discoverLoop (env : Env) (ralb : WallAlbum) (ban bas : String) (maxA : Nat) :
    List String → Nat → List Nat → LoopOut
  | _, 0, ds => ⟨none, some (exhaustMsg maxA), 0, ds⟩
  | [], _ + 1, ds => ⟨none, some (exhaustMsg maxA), 0, ds⟩
  | c :: rest, fuel + 1, ds =>
    let candsAll := c :: rest
    let chosen := rpick candsAll c (ds.headD 0)
    let cands' := candsAll.erase chosen
    let p := resolveAlbumData env chosen ds.tail
    match env.lastfm with
    | some _ =>
      match validate_and_correct_metal_album env.fz env.lastfm p.1 with
      | (some v, true) =>
        let bc := match env.bandcamp v.artist v.album with
                  | .error _ => none
                  | .ok o => o
        ⟨some (mkDiscovery ralb ban bas v bc chosen "✅ Validated as metal"),
         none, 1, p.2⟩
      | _ =>
        let r := discoverLoop env ralb ban bas maxA cands' fuel p.2
        ⟨r.result, r.err, r.attempts + 1, r.draws⟩
    | none =>
      let bc := match env.bandcamp chosen p.1.album with
                | .error _ => none
                | .ok o => o
      ⟨some (mkDiscovery ralb ban bas p.1 bc chosen
              "⚠️ Could not validate (Last.fm not available)"),
       none, 1, p.2⟩

/-- Stage of `discover_random_album` after the seed album is fixed: clean the
seed artist name, find related artists (Spotify first), filter the
candidates, fall back to the shuffled unfiltered list when the filter
removed everything, then run the candidate loop. -/
def discoverAfterSeed (env : Env) (ralb : WallAlbum) (maxA : Nat)
    (ds : List Nat) : Option DiscoveryData × Option String :=
  let clean := clean_artist_name ralb.artist
  if clean = "" then (none, some "Could not extract artist from album")
  else
    let related := findRelated_code env clean
    if related = [] then
      (none, some ("No related artists found for " ++ clean))
    else
      let filtered := filter_related_artists env.fz related clean
      let cpair := if filtered = [] then pyShuffle ds related else (filtered, ds)
      let lo := discoverLoop env ralb ralb.artist ralb.album_name maxA
                  cpair.1 maxA cpair.2
      (lo.result, lo.err)

/-- Embedding of `services/random_album.py::discover_random_album`. The
`base_artist` parameter is accepted and unused, exactly as in the
source (the seed artist is always read from the seed album dict).
Nothing in the model raises, so the outer
`except Exception: return None, f"Error during discovery: ..."` branch
is unreachable and has no counterpart. -/
def discover_random_album (env : Env) (base_artist : Option String)
    (base_album_obj : Option WallAlbum) (max_attempts : Nat) (ds : List Nat) :
    Option DiscoveryData × Option String :=
  let seedPair : Option WallAlbum × List Nat :=
    match base_album_obj with
    | none => get_random_album_from_wall env ds
    | some a => (some a, ds)
  match seedPair.1 with
  | none => (none, some "No albums found in the wall")
  | some ralb => discoverAfterSeed env ralb max_attempts seedPair.2

/-- Degenerate fuzzy scorer used by the concrete test environments:
100 for identical strings, 0 otherwise. In every concrete run below the
score of a *distinct* pair is only ever compared against thresholds
85/90 on clearly unrelated names (where the real `fuzzywuzzy` scores
are also far below the threshold), and identical pairs score 100 as in
the real library. -/
def fz0 : Fuzz :=
  { ratioFn := fun a b => if a = b then 100 else 0,
    tokenSetFn := fun a b => if a = b then 100 else 0,
    prFn := fun a b => if a = b then 100 else 0 }

/-- Placeholder wall album used as the default of `Option.getD` when
projecting a discovery result out of a concrete run. -/
def dfltWallAlbum : WallAlbum :=
  { id := 0, username := "", url := "", artist := "", album_name := "",
    cover_url := none, platform := "", tags := "", likes := 0, timestamp := "" }

/-- Default discovery payload for `Option.getD` projections. -/
def dfltDiscovery : DiscoveryData :=
  { originAlbum := dfltWallAlbum, originArtist := "", originAlbumName := "",
    discovery := { artist := "", album := "", image := none, url := "",
                   release_date := "", total_tracks := 0, genres := [] },
    bandcamp := none, description := "", validation := "",
    posting := { url := "", artist := "", album := "", image_url := none } }

/-- Seed wall album shared by the concrete runs: a Burzum album posted
to the wall. -/
def seedC1 : WallAlbum :=
  { id := 1, username := "u", url := "https://example.org/a",
    artist := "Burzum", album_name := "Filosofem", cover_url := none,
    platform := "bandcamp", tags := "", likes := 0, timestamp := "t" }

/-- Last.fm client for the C1 run: the seed's one related artist
"Emperor" carries only the tag "ambient" (which fails the genre
classifier), the album search returns no results and the top-albums
fallback raises, but all three of Emperor's similar artists are tagged
"death metal" — so step 3 of `validate_and_correct_metal_album`
accepts Emperor without Emperor ever passing the classifier. -/
def lfmC1 : LastfmClient :=
  { artistTags := fun n =>
      if n = "Emperor" then some ["ambient"]
      else if n = "M1" ∨ n = "M2" ∨ n = "M3" then some ["death metal"]
      else none,
    topAlbums := fun _ => none,
    similar := fun n =>
      if n = "Burzum" then some ["Emperor"]
      else if n = "Emperor" then some ["M1", "M2", "M3"]
      else none,
    searchAlbum := fun _ _ => some [] }

/-- Environment of the C1 counterexample run: no Spotify client, the
Last.fm client `lfmC1`, Bandcamp finds nothing. -/
def envC1 : Env :=
  { spotify := none, lastfm := some lfmC1, wall := none,
    bandcamp := fun _ _ => .ok none, fz := fz0, currentUser := none }

/-- The discovery payload produced by the C1 run. -/
def ddC1 : DiscoveryData :=
  (discover_random_album envC1 none (some seedC1) 8 []).1.getD dfltDiscovery

/-- Spotify client for the C3 run: the seed artist resolves (so related
artists come from Spotify), but for the candidate both the quoted
artist search and the loose album search return empty result lists, so
both Spotify album lookups miss. -/
def sc2 : SpotifyClient :=
  { searchArtistQ := fun _ => some [],
    searchArtist1 := fun n =>
      if n = "Burzum" then some [{ name := "Burzum", id := "id1", genres := [] }]
      else some [],
    relatedArtists := fun i => if i = "id1" then some ["Emperor"] else some [],
    artistAlbums := fun _ => none,
    searchAlbums := fun _ => some [],
    albumDetails := fun _ => none }

/-- Last.fm client for the C3 run: the candidate "Emperor" is tagged
"death metal", so step 1 of validation accepts immediately. -/
def lfm2 : LastfmClient :=
  { artistTags := fun n => if n = "Emperor" then some ["death metal"] else none,
    topAlbums := fun _ => none,
    similar := fun _ => none,
    searchAlbum := fun _ _ => some [] }

/-- Environment of the C3 counterexample run. -/
def env2 : Env :=
  { spotify := some sc2, lastfm := some lfm2, wall := none,
    bandcamp := fun _ _ => .ok none, fz := fz0, currentUser := none }

/-- Spotify client for the C4 run: the seed artist resolves and has the
related artist "SpotRel". -/
def sc3 : SpotifyClient :=
  { searchArtistQ := fun _ => some [],
    searchArtist1 := fun n =>
      if n = "Burzum" then some [{ name := "Burzum", id := "id1", genres := [] }]
      else some [],
    relatedArtists := fun i => if i = "id1" then some ["SpotRel"] else some [],
    artistAlbums := fun _ => none,
    searchAlbums := fun _ => some [],
    albumDetails := fun _ => none }

/-- Last.fm client for the C4 run: the seed artist has the related
artist "LastRel". -/
def lfm3 : LastfmClient :=
  { artistTags := fun _ => none,
    topAlbums := fun _ => none,
    similar := fun n => if n = "Burzum" then some ["LastRel"] else none,
    searchAlbum := fun _ _ => some [] }

/-- Environment of the C4 counterexample: both related-artist sources
are nonempty and disagree, exposing which one the code consults
first. -/
def env3 : Env :=
  { spotify := some sc3, lastfm := some lfm3, wall := none,
    bandcamp := fun _ _ => .ok none, fz := fz0, currentUser := none }

/-- Environment with neither provider configured (used to exercise the
`NoRelatedArtists` exhaustion return of the amended C4). -/
def env4e : Env :=
  { spotify := none, lastfm := none, wall := none,
    bandcamp := fun _ _ => .ok none, fz := fz0, currentUser := none }

/-- Seed wall album for the C8 exhaustion scenario. -/
def seed8 : WallAlbum :=
  { id := 8, username := "u", url := "https://example.org/s8",
    artist := "Seed8", album_name := "SeedAlbum8", cover_url := none,
    platform := "spotify", tags := "", likes := 0, timestamp := "t" }

/-- Last.fm client for the C8 exhaustion scenario: five related
artists, each tagged only "pop" (fails the classifier), with no album
search results and no similar artists — no candidate can ever pass
validation. -/
def lfm8 : LastfmClient :=
  { artistTags := fun n =>
      if n = "A1" ∨ n = "A2" ∨ n = "A3" ∨ n = "A4" ∨ n = "A5" then some ["pop"]
      else none,
    topAlbums := fun _ => none,
    similar := fun n =>
      if n = "Seed8" then some ["A1", "A2", "A3", "A4", "A5"] else none,
    searchAlbum := fun _ _ => some [] }

/-- Environment of the C8 exhaustion scenario (TagProvider only, as in
the spec's scenario). -/
def env8 : Env :=
  { spotify := none, lastfm := some lfm8, wall := none,
    bandcamp := fun _ _ => .ok none, fz := fz0, currentUser := none }

/-- Last.fm client for the C9 run: the one candidate is tagged
"death metal" and validates at step 1. -/
def lfm9 : LastfmClient :=
  { artistTags := fun n => if n = "Emperor" then some ["death metal"] else none,
    topAlbums := fun _ => none,
    similar := fun n => if n = "Burzum" then some ["Emperor"] else none,
    searchAlbum := fun _ _ => some [] }

/-- Environment of the C9 witness run: the Bandcamp lookup always
raises. -/
def env9 : Env :=
  { spotify := none, lastfm := some lfm9, wall := none,
    bandcamp := fun _ _ => .error (), fz := fz0, currentUser := none }

/-- The discovery payload produced by the C9 run. -/
def dd9 : DiscoveryData :=
  (discover_random_album env9 none (some seedC1) 8 []).1.getD dfltDiscovery

/-- Last.fm client for the C10 run: the only related artist reported
for the seed "Burzum" is "Burzum" itself (which the candidate filter
removes as too similar), and it is tagged "black metal". -/
def lfm10 : LastfmClient :=
  { artistTags := fun n => if n = "Burzum" then some ["black metal"] else none,
    topAlbums := fun _ => none,
    similar := fun n => if n = "Burzum" then some ["Burzum"] else none,
    searchAlbum := fun _ _ => some [] }

/-- Environment of the C10 fallback run. -/
def env10 : Env :=
  { spotify := none, lastfm := some lfm10, wall := none,
    bandcamp := fun _ _ => .ok none, fz := fz0, currentUser := none }

/-- Mapping a function that fixes every element of a list is the
identity. -/
theorem listMapId {α : Type} (f : α → α) :
    ∀ l : List α, (∀ a ∈ l, f a = a) → l.map f = l := by
  intro l h
  induction l with
  | nil => rfl
  | cons a t ih =>
    simp only [List.map_cons]
    rw [h a (by simp), ih fun b hb => h b (by simp [hb])]

/-- Flat-mapping a function that sends every element of a list to its
singleton is the identity. -/
theorem listFlatMapId {α : Type} (f : α → List α) :
    ∀ l : List α, (∀ a ∈ l, f a = [a]) → l.flatMap f = l := by
  intro l h
  induction l with
  | nil => rfl
  | cons a t ih =>
    simp only [List.flatMap_cons]
    rw [h a (by simp), ih fun b hb => h b (by simp [hb])]
    rfl

/-- Every word produced by `pyWordsAux` is nonempty, contains no
whitespace, and draws its characters from the input or the
accumulator. -/
theorem pyWordsAux_sound :
    ∀ (cs : List Char) (acc : List Char),
      (∀ c ∈ acc, isPySpace c = false) →
      ∀ w ∈ pyWordsAux cs acc, w ≠ [] ∧ ∀ c ∈ w, isPySpace c = false ∧ (c ∈ cs ∨ c ∈ acc) := by
  intro cs
  induction cs with
  | nil =>
    intro acc hacc w hw
    simp only [pyWordsAux] at hw
    split at hw
    · simp at hw
    · next hne =>
      simp only [List.mem_singleton] at hw
      subst hw
      refine ⟨by simpa [List.isEmpty_iff] using hne, fun c hc => ?_⟩
      rw [List.mem_reverse] at hc
      exact ⟨hacc c hc, Or.inr hc⟩
  | cons a cs ih =>
    intro acc hacc w hw
    simp only [pyWordsAux] at hw
    by_cases hsp : isPySpace a
    · rw [if_pos hsp] at hw
      by_cases hemp : acc.isEmpty
      · rw [if_pos hemp] at hw
        obtain ⟨hne, hc⟩ := ih [] (by simp) w hw
        exact ⟨hne, fun c hc' => ⟨(hc c hc').1, by
          rcases (hc c hc').2 with h | h
          · exact Or.inl (by simp [h])
          · simp at h⟩⟩
      · rw [if_neg hemp] at hw
        rcases List.mem_cons.mp hw with rfl | hw'
        · refine ⟨by simpa [List.isEmpty_iff] using hemp, fun c hc => ?_⟩
          rw [List.mem_reverse] at hc
          exact ⟨hacc c hc, Or.inr hc⟩
        · obtain ⟨hne, hc⟩ := ih [] (by simp) w hw'
          exact ⟨hne, fun c hc' => ⟨(hc c hc').1, by
            rcases (hc c hc').2 with h | h
            · exact Or.inl (by simp [h])
            · simp at h⟩⟩
    · rw [if_neg hsp] at hw
      have hacc' : ∀ c ∈ a :: acc, isPySpace c = false := by
        intro c hc
        rcases List.mem_cons.mp hc with rfl | hc'
        · simpa using hsp
        · exact hacc c hc'
      obtain ⟨hne, hc⟩ := ih (a :: acc) hacc' w hw
      refine ⟨hne, fun c hc' => ⟨(hc c hc').1, ?_⟩⟩
      rcases (hc c hc').2 with h | h
      · exact Or.inl (by simp [h])
      · rcases List.mem_cons.mp h with rfl | h'
        · exact Or.inl (by simp)
        · exact Or.inr h'

/-- Words of `pyWords` are nonempty, whitespace-free, and drawn from
the input. -/
theorem pyWords_sound (cs : List Char) :
    ∀ w ∈ pyWords cs, w ≠ [] ∧ ∀ c ∈ w, isPySpace c = false ∧ c ∈ cs := by
  intro w hw
  obtain ⟨hne, hc⟩ := pyWordsAux_sound cs [] (by simp) w hw
  exact ⟨hne, fun c hc' => ⟨(hc c hc').1, by
    rcases (hc c hc').2 with h | h
    · exact h
    · simp at h⟩⟩

/-- Every character of a joined word list comes from one of the words
or is the inserted separator. -/
theorem joinWords_chars :
    ∀ ws : List (List Char), ∀ c ∈ joinWords ws, (∃ w ∈ ws, c ∈ w) ∨ c = ' ' := by
  intro ws
  induction ws with
  | nil => intro c hc; simp [joinWords] at hc
  | cons w ws ih =>
    intro c hc
    cases ws with
    | nil => exact Or.inl ⟨w, by simp, by simpa [joinWords] using hc⟩
    | cons w' ws' =>
      simp only [joinWords, List.mem_append, List.mem_cons] at hc
      rcases hc with h | h | h
      · exact Or.inl ⟨w, by simp, h⟩
      · exact Or.inr h
      · rcases ih c h with ⟨v, hv, hcv⟩ | h'
        · exact Or.inl ⟨v, by simp [hv], hcv⟩
        · exact Or.inr h'

/-- A join of good words starts with a character of the first word. -/
theorem joinWords_head :
    ∀ (w : List Char) (ws : List (List Char)), w ≠ [] →
      ∃ c t, joinWords (w :: ws) = c :: t ∧ c ∈ w := by
  intro w ws hw
  cases w with
  | nil => exact absurd rfl hw
  | cons c w' =>
    cases ws with
    | nil => exact ⟨c, w', rfl, by simp⟩
    | cons w'' ws' =>
      exact ⟨c, w' ++ ' ' :: joinWords (w'' :: ws'), rfl, by simp⟩

/-- The reverse of a join of good nonempty words starts with a
character of one of the words. -/
theorem joinWords_revHead :
    ∀ ws : List (List Char), (∀ w ∈ ws, w ≠ []) → ws ≠ [] →
      ∃ c t, (joinWords ws).reverse = c :: t ∧ ∃ w ∈ ws, c ∈ w := by
  intro ws
  induction ws with
  | nil => intro _ h; exact absurd rfl h
  | cons w ws ih =>
    intro hne _
    cases ws with
    | nil =>
      have hw : w ≠ [] := hne w (by simp)
      cases hrev : w.reverse with
      | nil => exact absurd (by simpa using hrev) hw
      | cons c t =>
        refine ⟨c, t, by simpa [joinWords] using hrev, w, by simp, ?_⟩
        rw [← List.mem_reverse, hrev]
        simp
    | cons w' ws' =>
      obtain ⟨c, t, hrev, v, hv, hcv⟩ :=
        ih (fun u hu => hne u (by simp [hu])) (by simp)
      refine ⟨c, t ++ [' '] ++ w.reverse, ?_, v, by simp [hv], hcv⟩
      show (w ++ ' ' :: joinWords (w' :: ws')).reverse = _
      rw [List.reverse_append, List.reverse_cons, hrev]
      simp

/-- Stripping a join of nonempty whitespace-free words is the
identity. -/
theorem pyStrip_joinWords :
    ∀ ws : List (List Char),
      (∀ w ∈ ws, w ≠ [] ∧ ∀ c ∈ w, isPySpace c = false) →
      pyStrip (joinWords ws) = joinWords ws := by
  intro ws hws
  cases ws with
  | nil => rfl
  | cons w ws' =>
    obtain ⟨c, t, hj, hcw⟩ := joinWords_head w ws' (hws w (by simp)).1
    have hcns : isPySpace c = false := (hws w (by simp)).2 c hcw
    obtain ⟨c', t', hrev, v, hv, hcv⟩ :=
      joinWords_revHead (w :: ws') (fun u hu => (hws u hu).1) (by simp)
    have hcns' : isPySpace c' = false := (hws v hv).2 c' hcv
    unfold pyStrip
    rw [hj, List.dropWhile_cons, if_neg (by simp [hcns]), ← hj, hrev,
        List.dropWhile_cons, if_neg (by simp [hcns']), ← hrev,
        List.reverse_reverse]

/-- Feeding a whitespace-free word followed by anything into
`pyWordsAux` accumulates the word. -/
theorem pyWordsAux_append :
    ∀ (w cs acc : List Char), (∀ c ∈ w, isPySpace c = false) →
      pyWordsAux (w ++ cs) acc = pyWordsAux cs (w.reverse ++ acc) := by
  intro w
  induction w with
  | nil => intro cs acc _; simp
  | cons c w' ih =>
    intro cs acc h
    show pyWordsAux (c :: (w' ++ cs)) acc = _
    simp only [pyWordsAux]
    rw [if_neg (by simp [h c (by simp)])]
    rw [ih cs (c :: acc) fun b hb => h b (by simp [hb])]
    simp

/-- Splitting a join of nonempty whitespace-free words returns exactly
the words. -/
theorem pyWords_joinWords :
    ∀ ws : List (List Char),
      (∀ w ∈ ws, w ≠ [] ∧ ∀ c ∈ w, isPySpace c = false) →
      pyWords (joinWords ws) = ws := by
  intro ws
  induction ws with
  | nil => intro _; rfl
  | cons w ws' ih =>
    intro hws
    have hw : w ≠ [] := (hws w (by simp)).1
    have hwns : ∀ c ∈ w, isPySpace c = false := (hws w (by simp)).2
    cases ws' with
    | nil =>
      show pyWordsAux (joinWords [w]) [] = [w]
      have : joinWords [w] = w ++ [] := by simp [joinWords]
      rw [this, pyWordsAux_append w [] [] hwns]
      simp only [pyWordsAux, List.append_nil]
      rw [if_neg (by simpa [List.isEmpty_iff] using hw)]
      simp
    | cons w'' ws'' =>
      show pyWordsAux (w ++ ' ' :: joinWords (w'' :: ws'')) [] = _
      rw [pyWordsAux_append w _ [] hwns]
      simp only [pyWordsAux]
      rw [if_pos (by simp [isPySpace]),
          if_neg (by simpa [List.isEmpty_iff] using hw)]
      have := ih fun u hu => hws u (by simp [hu])
      simp only [List.append_nil, List.reverse_reverse]
      rw [show pyWordsAux (joinWords (w'' :: ws'')) [] =
            pyWords (joinWords (w'' :: ws'')) from rfl, this]

/-- Equation for `normalizeChars` with the final strip discharged: the
strip is the identity on the collapsed word join. -/
theorem normalizeChars_eq (cs : List Char) :
    normalizeChars cs = joinWords (pyWords (preNormalize cs)) := by
  unfold normalizeChars
  exact pyStrip_joinWords _ fun w hw =>
    ⟨(pyWords_sound _ w hw).1, fun c hc => ((pyWords_sound _ w hw).2 c hc).1⟩

/-- Shorthand for the character alphabet of a normalized name:
lowercase ASCII letter, ASCII digit, or the single space. -/
def isNormChar (c : Char) : Prop :=
  (97 ≤ c.toNat ∧ c.toNat ≤ 122) ∨ (48 ≤ c.toNat ∧ c.toNat ≤ 57) ∨ c = ' '

/-- Every character kept by the `[^a-z0-9\s]` filter that is not
whitespace is a lowercase ASCII letter or digit. -/
theorem isKeep_not_space (c : Char) (hk : isKeep c = true)
    (hs : isPySpace c = false) :
    (97 ≤ c.toNat ∧ c.toNat ≤ 122) ∨ (48 ≤ c.toNat ∧ c.toNat ≤ 57) := by
  unfold isKeep at hk
  rw [hs, Bool.or_false, Bool.or_eq_true, decide_eq_true_eq, decide_eq_true_eq] at hk
  exact hk

/-- Every character of a normalized name is a lowercase ASCII letter,
a digit, or a space. -/
theorem normalizeChars_alphabet (cs : List Char) :
    ∀ c ∈ normalizeChars cs, isNormChar c := by
  intro c hc
  rw [normalizeChars_eq] at hc
  rcases joinWords_chars _ c hc with ⟨w, hw, hcw⟩ | hsp
  · obtain ⟨-, hprop⟩ := pyWords_sound (preNormalize cs) w hw
    obtain ⟨hns, hmem⟩ := hprop c hcw
    have hk : isKeep c = true := (List.mem_filter.mp hmem).2
    rcases isKeep_not_space c hk hns with h | h
    · exact Or.inl h
    · exact Or.inr (Or.inl h)
  · exact Or.inr (Or.inr hsp)

/-- Lowercasing via `pyLower` fixes every normalized character. -/
theorem pyLower_fix (c : Char) (h : isNormChar c) : pyLower c = c := by
  unfold pyLower
  rcases h with ⟨h1, h2⟩ | ⟨h1, h2⟩ | rfl
  · rw [if_neg (by omega)]
  · rw [if_neg (by omega)]
  · rfl

/-- A normalized character is not one of the characters the rewriting
stages act on. -/
theorem isNormChar_ne (c : Char) (h : isNormChar c) :
    c ≠ '"' ∧ c ≠ '\'' ∧ c ≠ '&' ∧ c ≠ '+' ∧ isKeep c = true := by
  rcases h with ⟨h1, h2⟩ | ⟨h1, h2⟩ | rfl
  · refine ⟨?_, ?_, ?_, ?_, ?_⟩ <;>
      first
        | (intro hc; subst hc; exact absurd h1 (by decide))
        | (simp only [isKeep, Bool.or_eq_true, decide_eq_true_iff]
           exact Or.inl (Or.inl ⟨h1, h2⟩))
  · refine ⟨?_, ?_, ?_, ?_, ?_⟩ <;>
      first
        | (intro hc; subst hc; exact absurd h1 (by decide))
        | (simp only [isKeep, Bool.or_eq_true, decide_eq_true_iff]
           exact Or.inl (Or.inr ⟨h1, h2⟩))
  · refine ⟨by decide, by decide, by decide, by decide, by decide⟩

/-- The rewriting stages of the normalizer fix a normalized name whose
first four characters are not `"the "`. -/
theorem preNormalize_fix (r : List Char) (halpha : ∀ c ∈ r, isNormChar c)
    (h4 : r.take 4 ≠ ['t', 'h', 'e', ' ']) : preNormalize r = r := by
  simp only [preNormalize]
  have hmap : r.map pyLower = r := listMapId _ r fun c hc => pyLower_fix c (halpha c hc)
  rw [hmap, if_neg h4]
  have hq : r.take 1 ≠ ['"'] := by
    cases r with
    | nil => simp
    | cons c t =>
      simp only [List.take, List.cons.injEq, and_true, ne_eq]
      intro hc
      exact (isNormChar_ne c (halpha c (by simp))).1 (by simpa using hc)
  rw [if_neg hq]
  have hq' : r.take 1 ≠ ['\''] := by
    cases r with
    | nil => simp
    | cons c t =>
      simp only [List.take, List.cons.injEq, and_true, ne_eq]
      intro hc
      exact (isNormChar_ne c (halpha c (by simp))).2.1 (by simpa using hc)
  rw [if_neg hq']
  have hfm : (r.flatMap fun c =>
      if c = '&' || c = '+' then [' ', 'a', 'n', 'd', ' '] else [c]) = r := by
    refine listFlatMapId _ r fun c hc => ?_
    obtain ⟨-, -, h3, h4', -⟩ := isNormChar_ne c (halpha c hc)
    rw [if_neg (by simp [h3, h4'])]
  rw [hfm]
  exact List.filter_eq_self.mpr fun c hc => (isNormChar_ne c (halpha c hc)).2.2.2.2

/-- Normalizing an already-normalized name whose normal form does not
begin with `"the "` returns it unchanged. -/
theorem normalizeChars_idem (cs : List Char)
    (h4 : (normalizeChars cs).take 4 ≠ ['t', 'h', 'e', ' ']) :
    normalizeChars (normalizeChars cs) = normalizeChars cs := by
  have halpha := normalizeChars_alphabet cs
  have hgood : ∀ w ∈ pyWords (preNormalize cs),
      w ≠ [] ∧ ∀ c ∈ w, isPySpace c = false := fun w hw =>
    ⟨(pyWords_sound _ w hw).1, fun c hc => ((pyWords_sound _ w hw).2 c hc).1⟩
  calc normalizeChars (normalizeChars cs)
      = pyStrip (joinWords (pyWords (preNormalize (normalizeChars cs)))) := rfl
    _ = pyStrip (joinWords (pyWords (normalizeChars cs))) := by
        rw [preNormalize_fix _ halpha h4]
    _ = pyStrip (joinWords (pyWords (joinWords (pyWords (preNormalize cs))))) := by
        rw [← normalizeChars_eq]
    _ = pyStrip (joinWords (pyWords (preNormalize cs))) := by
        rw [pyWords_joinWords _ hgood]
    _ = normalizeChars cs := rfl

/-- Picking via `random.choice` from a nonempty list returns an element of it. -/
theorem rpick_mem {α : Type} (c : α) (l : List α) (d : Nat) :
    rpick (c :: l) c d ∈ c :: l := by
  unfold rpick
  cases h : (c :: l).get? (d % (c :: l).length) with
  | none => simp
  | some x => simpa using List.get?_mem h

/-- The candidate loop executes at most `min fuel |candidates|`
iterations: each iteration consumes one unit of fuel and removes the
tried candidate from the pool. -/
theorem discoverLoop_attempts_le (env : Env) (ralb : WallAlbum) (ban bas : String)
    (maxA : Nat) :
    ∀ (fuel : Nat) (cands : List String) (ds : List Nat),
      (discoverLoop env ralb ban bas maxA cands fuel ds).attempts ≤
        min fuel cands.length := by
  intro fuel
  induction fuel with
  | zero => intro cands ds; simp [discoverLoop]
  | succ fuel ih =>
    intro cands ds
    cases cands with
    | nil => simp [discoverLoop]
    | cons c rest =>
      have hmem := rpick_mem c rest (ds.headD 0)
      have herase : ((c :: rest).erase (rpick (c :: rest) c (ds.headD 0))).length =
          rest.length := by
        rw [List.length_erase_of_mem hmem]
        simp
      simp only [discoverLoop]
      split
      · split
        · simp only []
          have hlen : (c :: rest).length = rest.length + 1 := by simp
          omega
        · simp only []
          have hb := ih ((c :: rest).erase (rpick (c :: rest) c (ds.headD 0)))
            (resolveAlbumData env (rpick (c :: rest) c (ds.headD 0)) ds.tail).2
          rw [herase] at hb
          have hlen : (c :: rest).length = rest.length + 1 := by simp
          omega
      · simp only []
        have hlen : (c :: rest).length = rest.length + 1 := by simp
        omega

/-- Every success payload of the candidate loop was either accepted by
`validate_and_correct_metal_album` (possibly with a corrected artist),
or produced in the degraded mode in which no Last.fm client exists. -/
theorem discoverLoop_success_validated (env : Env) (ralb : WallAlbum)
    (ban bas : String) (maxA : Nat) :
    ∀ (fuel : Nat) (cands : List String) (ds : List Nat) (dd : DiscoveryData),
      (discoverLoop env ralb ban bas maxA cands fuel ds).result = some dd →
      env.lastfm = none ∨
        ∃ lc, env.lastfm = some lc ∧
          ∃ d0, validate_and_correct_metal_album env.fz (some lc) d0 =
            (some dd.discovery, true) := by
  intro fuel
  induction fuel with
  | zero => intro cands ds dd h; simp [discoverLoop] at h
  | succ fuel ih =>
    intro cands ds dd h
    cases cands with
    | nil => simp [discoverLoop] at h
    | cons c rest =>
      simp only [discoverLoop] at h
      split at h
      · next lc heq =>
        split at h
        · next v hv =>
          simp only [] at h
          refine Or.inr ⟨lc, heq, ⟨(resolveAlbumData env
            (rpick (c :: rest) c (ds.headD 0)) ds.tail).1, ?_⟩⟩
          rw [← heq]
          injection h with h'
          rw [← h']
          exact hv
        · next hv =>
          simp only [] at h
          exact ih _ _ dd h
      · next heq => exact Or.inl heq

/-- If every Bandcamp lookup raises, the success payload of the
candidate loop carries no Bandcamp link (the exception is caught and
converted to `None`). -/
theorem discoverLoop_bandcamp_none (env : Env) (ralb : WallAlbum)
    (ban bas : String) (maxA : Nat)
    (hbc : ∀ a b, env.bandcamp a b = Except.error ()) :
    ∀ (fuel : Nat) (cands : List String) (ds : List Nat) (dd : DiscoveryData),
      (discoverLoop env ralb ban bas maxA cands fuel ds).result = some dd →
      dd.bandcamp = none := by
  intro fuel
  induction fuel with
  | zero => intro cands ds dd h; simp [discoverLoop] at h
  | succ fuel ih =>
    intro cands ds dd h
    cases cands with
    | nil => simp [discoverLoop] at h
    | cons c rest =>
      simp only [discoverLoop] at h
      split at h
      · split at h
        · next v hv =>
          simp only [] at h
          rw [hbc] at h
          injection h with h'
          rw [← h']
          rfl
        · next hv =>
          simp only [] at h
          exact ih _ _ dd h
      · simp only [] at h
        rw [hbc] at h
        injection h with h'
        rw [← h']
        rfl

/-- A successful discovery comes out of the candidate loop: there are a
seed album, a candidate list and a draw stream for which the loop
produced exactly this payload. -/
theorem discover_success_loop (env : Env) (ba : Option String)
    (sd : Option WallAlbum) (maxA : Nat) (ds : List Nat) (dd : DiscoveryData)
    (h : discover_random_album env ba sd maxA ds = (some dd, none)) :
    ∃ ralb cands ds',
      (discoverLoop env ralb ralb.artist ralb.album_name maxA cands maxA ds').result =
        some dd := by
  simp only [discover_random_album] at h
  split at h
  · simp at h
  · next ralb heq =>
    simp only [discoverAfterSeed] at h
    split at h
    · simp at h
    · split at h
      · simp at h
      · have h1 := congrArg Prod.fst h
        simp only [] at h1
        exact ⟨ralb, _, _, h1⟩

/-- C5: the similarity check returns `false` for
("Cattle Decapitation", "Decapitation") at threshold 90 — single-word
containment in a multi-word name is rejected before any fuzzy score is
consulted — and `true` for ("Darkthrone", "darkthrone") at threshold
85 (the normalized names are equal). Both results hold for every
choice of fuzzy scorers. -/
theorem C5_similarity_guard_cases : ∀ fz : Fuzz,
    are_artists_similar fz "Cattle Decapitation" "Decapitation" 90 = false ∧
    are_artists_similar fz "Darkthrone" "darkthrone" 85 = true :=
  fun _ => ⟨rfl, rfl⟩

/-- C6 counterexample: the normalizer does not remove the leading
articles "a"/"an" (only `"the "`), and it deletes characters with
diacritics instead of preserving them: `"A Perfect Circle"` keeps its
leading article, and `"Motörhead"` loses the `ö` entirely. -/
theorem C6_counterexample :
    normalize_artist_name "A Perfect Circle" = "a perfect circle" ∧
    ("a perfect circle" : String) ≠ "perfect circle" ∧
    normalize_artist_name "Motörhead" = "motrhead" ∧
    ("motrhead" : String) ≠ "motörhead" :=
  ⟨rfl, by decide, rfl, by decide⟩

/-- C6 amended: for every input the normalizer is total and returns a
string of lowercase ASCII letters, digits and single spaces (so
punctuation, `&`/`+` expansion aside, and any non-ASCII characters —
including letters with diacritics — are gone, and only the leading
article `"the "` is stripped, not `"a"`/`"an"`); the result is a fixed
point of whitespace collapsing (`' '.join(s.split())`) and of
stripping, and the empty input maps to the empty string. -/
theorem C6_amended_normalizer_shape : ∀ s : String,
    (∀ c ∈ (normalize_artist_name s).data, isNormChar c) ∧
    joinWords (pyWords (normalize_artist_name s).data) =
      (normalize_artist_name s).data ∧
    pyStrip (normalize_artist_name s).data = (normalize_artist_name s).data ∧
    normalize_artist_name "" = "" := by
  intro s
  by_cases hs : s = ""
  · subst hs
    refine ⟨?_, rfl, rfl, rfl⟩
    intro c hc
    simp [normalize_artist_name] at hc
  · have hdata : (normalize_artist_name s).data = normalizeChars s.data := by
      unfold normalize_artist_name
      rw [if_neg hs]
    have hgood : ∀ w ∈ pyWords (preNormalize s.data),
        w ≠ [] ∧ ∀ c ∈ w, isPySpace c = false := fun w hw =>
      ⟨(pyWords_sound _ w hw).1, fun c hc => ((pyWords_sound _ w hw).2 c hc).1⟩
    refine ⟨?_, ?_, ?_, rfl⟩
    · rw [hdata]
      exact normalizeChars_alphabet s.data
    · rw [hdata, normalizeChars_eq, pyWords_joinWords _ hgood]
    · rw [hdata, normalizeChars_eq]
      exact pyStrip_joinWords _ hgood

/-- C7 counterexample: normalization is not idempotent. The first pass
over `" the x"` only collapses whitespace (the `"the "` prefix check
happens before collapsing and fails because of the leading space), so
it returns `"the x"`; the second pass then strips the article and
returns `"x"`. -/
theorem C7_counterexample :
    normalize_artist_name (normalize_artist_name " the x") ≠
      normalize_artist_name " the x" := by decide

/-- C7 amended: normalization is idempotent on every input whose
normal form does not begin with `"the "`; a second application can
differ only by stripping such a leading article that the first pass
left behind. -/
theorem C7_amended_idempotent_unless_the : ∀ s : String,
    (normalize_artist_name s).data.take 4 ≠ ['t', 'h', 'e', ' '] →
    normalize_artist_name (normalize_artist_name s) = normalize_artist_name s := by
  intro s h4
  by_cases hs : s = ""
  · subst hs; rfl
  · have hdata : (normalize_artist_name s).data = normalizeChars s.data := by
      unfold normalize_artist_name
      rw [if_neg hs]
    by_cases hn : normalize_artist_name s = ""
    · rw [hn]; rfl
    · conv_lhs => rw [normalize_artist_name]
      rw [if_neg hn, hdata,
          normalizeChars_idem s.data (by rw [← hdata]; exact h4), ← hdata]

/-- C7 witness: the amended idempotence at the concrete name
"Burzum". -/
theorem C7_witness :
    normalize_artist_name (normalize_artist_name "Burzum") =
      normalize_artist_name "Burzum" :=
  C7_amended_idempotent_unless_the "Burzum" (by decide)

/-- C2 counterexample: the claim fails for the TagSet `["classical"]`.
The tag "classical" is a substring of the weighted keyword
"neoclassical metal", so it scores 2.0 ≥ 1.5 with only one
disqualifying hit, and the classifier returns `True`. -/
theorem C2_counterexample :
    ¬ (∀ ts : List String,
        (∀ t ∈ ts, t ∈ (["pop", "country", "jazz", "classical"] : List String)) →
        classify_tags ts = false) := by
  intro h
  have := h ["classical"] (by simp)
  exact absurd this (by decide)

/-- C2 amended: for every TagSet drawn from {"pop", "country", "jazz"}
the classifier returns `isMetal = false` (each such tag contributes a
metal score of 0, so the 1.5 threshold is never reached); "classical"
must be excluded because it matches the keyword
"neoclassical metal". -/
theorem C2_amended_nonmetal_tags_classify_false : ∀ ts : List String,
    (∀ t ∈ ts, t ∈ (["pop", "country", "jazz"] : List String)) →
    classify_tags ts = false := by
  intro ts h
  have hz : ((ts.map pyLowerStr).map tagMetalScore).sum = 0 := by
    refine List.sum_eq_zero ?_
    intro x hx
    simp only [List.mem_map] at hx
    obtain ⟨t, ht, rfl⟩ := hx
    obtain ⟨u, hu, rfl⟩ := ht
    have hu3 : u = "pop" ∨ u = "country" ∨ u = "jazz" := by simpa using h u hu
    rcases hu3 with rfl | rfl | rfl <;> rfl
  simp only [classify_tags]
  rw [hz]
  simp

/-- C2 witness: the amended statement at the concrete TagSet
`["pop", "jazz", "pop"]`. -/
theorem C2_witness : classify_tags ["pop", "jazz", "pop"] = false :=
  C2_amended_nonmetal_tags_classify_false ["pop", "jazz", "pop"] (by simp)

/-- C1 counterexample: a discovery run with the Tag Provider available
(`envC1.lastfm` is `some`) returns the artist "Emperor" even though
"Emperor" fails genre classification (`is_metal_artist` is `false`):
step 3 of `validate_and_correct_metal_album` accepted it because at
least 3 of its similar artists classify as metal. -/
theorem C1_counterexample :
    ((discover_random_album envC1 none (some seedC1) 8 []).1.map fun d =>
        d.discovery.artist) = some "Emperor" ∧
    (discover_random_album envC1 none (some seedC1) 8 []).2 = none ∧
    envC1.lastfm.isSome = true ∧
    is_metal_artist envC1.lastfm "Emperor" = false :=
  ⟨rfl, rfl, rfl, rfl⟩

/-- C1 amended: every successfully discovered album was either
produced in degraded mode (no Last.fm client at all) or accepted by
`validate_and_correct_metal_album` — which passes genre
classification, or accepts through the Last.fm album-search correction
(a plain metal keyword among the corrected artist's tags), or accepts
when at least 3 of up to 8 similar artists classify as metal. -/
theorem C1_amended_validated_or_degraded :
    ∀ (env : Env) (ba : Option String) (sd : Option WallAlbum) (maxA : Nat)
      (ds : List Nat) (dd : DiscoveryData),
      discover_random_album env ba sd maxA ds = (some dd, none) →
      env.lastfm = none ∨
        ∃ lc, env.lastfm = some lc ∧
          ∃ d0, validate_and_correct_metal_album env.fz (some lc) d0 =
            (some dd.discovery, true) := by
  intro env ba sd maxA ds dd h
  obtain ⟨ralb, cands, ds', hloop⟩ := discover_success_loop env ba sd maxA ds dd h
  exact discoverLoop_success_validated env ralb ralb.artist ralb.album_name
    maxA maxA cands ds' dd hloop

/-- C1 witness: the amended invariant instantiated at the concrete run
of `envC1`. -/
theorem C1_witness :
    envC1.lastfm = none ∨
      ∃ lc, envC1.lastfm = some lc ∧
        ∃ d0, validate_and_correct_metal_album envC1.fz (some lc) d0 =
          (some ddC1.discovery, true) :=
  C1_amended_validated_or_degraded envC1 none (some seedC1) 8 [] ddC1 rfl

/-- C3 counterexample: with the Spotify client configured, the
candidate "Emperor" fails exact-artist resolution
(`get_precise_spotify_album` returns `None`) and the loose fallback
also fails, yet the run does not skip the candidate: it returns a
placeholder discovery "Random album by Emperor" for exactly that
candidate. -/
theorem C3_counterexample :
    env2.spotify.isSome = true ∧
    (get_precise_spotify_album env2.fz sc2 "Emperor" []).1 = none ∧
    (get_random_album_by_artist sc2 "Emperor" []).1 = none ∧
    (discover_random_album env2 none (some seedC1) 8 []).2 = none ∧
    ((discover_random_album env2 none (some seedC1) 8 []).1.map fun d =>
        d.discovery.album) = some "Random album by Emperor" :=
  ⟨rfl, rfl, rfl, rfl, rfl⟩

/-- C3 amended: when the precise Spotify resolution of a candidate
fails, the orchestrator does not continue to the next candidate — it
falls back to the loose album search, and when that also fails it
builds the Last.fm-URL placeholder album for the same candidate and
proceeds to validation with it. -/
theorem C3_amended_placeholder_on_double_miss :
    ∀ (env : Env) (sc : SpotifyClient) (artist : String) (ds : List Nat),
      env.spotify = some sc →
      (get_precise_spotify_album env.fz sc artist ds).1 = none →
      (get_random_album_by_artist sc artist
        (get_precise_spotify_album env.fz sc artist ds).2).1 = none →
      (resolveAlbumData env artist ds).1 = placeholderAlbum artist := by
  intro env sc artist ds henv h1 h2
  simp only [resolveAlbumData, henv]
  split
  · next d hd => rw [h1] at hd; exact absurd hd (by simp)
  · next hd =>
    split
    · next d hd2 => rw [h2] at hd2; exact absurd hd2 (by simp)
    · next => rfl

/-- C3 witness: the amended statement at the concrete environment of
the counterexample run. -/
theorem C3_witness :
    (resolveAlbumData env2 "Emperor" []).1 = placeholderAlbum "Emperor" :=
  C3_amended_placeholder_on_double_miss env2 sc2 "Emperor" [] rfl rfl rfl

/-- C4 counterexample: with both related-artist sources nonempty and
disagreeing, the code returns the Catalog Provider's (Spotify's) list,
not the Tag Provider's (Last.fm's) list that the claimed tag-first
ordering would produce. -/
theorem C4_counterexample :
    findRelated_code env3 "Burzum" = ["SpotRel"] ∧
    findRelated_specModel env3 "Burzum" = ["LastRel"] ∧
    findRelated_code env3 "Burzum" ≠ findRelated_specModel env3 "Burzum" :=
  ⟨rfl, rfl, by decide⟩

/-- C4 amended: `FindRelated` queries the Catalog Provider (Spotify)
first and falls back to the Tag Provider (Last.fm) only if Spotify
returned an empty list; when both sources come up empty the run fails
with the "No related artists found for ..." error. -/
theorem C4_amended_catalog_first_then_tag :
    (∀ (env : Env) (name : String) (sc : SpotifyClient),
      env.spotify = some sc → get_related_artists_spotify sc name ≠ [] →
      findRelated_code env name = get_related_artists_spotify sc name) ∧
    (∀ (env : Env) (name : String) (sc : SpotifyClient),
      env.spotify = some sc → get_related_artists_spotify sc name = [] →
      findRelated_code env name =
        (match env.lastfm with
         | none => []
         | some lc => get_related_artists_lastfm lc name)) ∧
    (∀ (env : Env) (ba : Option String) (sd : WallAlbum) (maxA : Nat)
       (ds : List Nat),
      clean_artist_name sd.artist ≠ "" →
      findRelated_code env (clean_artist_name sd.artist) = [] →
      discover_random_album env ba (some sd) maxA ds =
        (none, some ("No related artists found for " ++
          clean_artist_name sd.artist))) := by
  refine ⟨?_, ?_, ?_⟩
  · intro env name sc henv hne
    simp only [findRelated_code, henv]
    rw [if_neg hne]
  · intro env name sc henv hemp
    simp only [findRelated_code, henv]
    rw [if_pos hemp]
  · intro env ba sd maxA ds hclean hrel
    simp only [discover_random_album, discoverAfterSeed]
    rw [if_neg hclean, if_pos hrel]

/-- C4 witness: the exhaustion conjunct of the amended statement at a
concrete environment with neither provider configured. -/
theorem C4_witness :
    discover_random_album env4e none (some seedC1) 8 [] =
      (none, some ("No related artists found for " ++
        clean_artist_name seedC1.artist)) :=
  C4_amended_catalog_first_then_tag.2.2 env4e none seedC1 8 [] (by decide) rfl

/-- C8: the candidate loop executes at most
`min maxAttempts |candidates|` iterations (each attempt removes the
tried candidate without replacement), and in the concrete exhaustion
scenario — five related artists none of which ever validate, with
`max_attempts = 5` — the run makes exactly 5 attempts and returns the
exhaustion error. The last two conjuncts pin down that the loop
arguments shown are exactly the ones this run produces. -/
theorem C8_loop_bounded_and_exhaustion :
    (∀ (env : Env) (ralb : WallAlbum) (ban bas : String) (maxA fuel : Nat)
       (cands : List String) (ds : List Nat),
      (discoverLoop env ralb ban bas maxA cands fuel ds).attempts ≤
        min fuel cands.length) ∧
    discover_random_album env8 none (some seed8) 5 [] =
      (none, some "Could not find a valid metal album after 5 attempts. Try again!") ∧
    (discoverLoop env8 seed8 "Seed8" "SeedAlbum8" 5
        ["A1", "A2", "A3", "A4", "A5"] 5 []).attempts = 5 ∧
    clean_artist_name seed8.artist = "Seed8" ∧
    filter_related_artists env8.fz (findRelated_code env8 "Seed8") "Seed8" =
      ["A1", "A2", "A3", "A4", "A5"] := by
  refine ⟨?_, rfl, rfl, rfl, rfl⟩
  intro env ralb ban bas maxA fuel cands ds
  exact discoverLoop_attempts_le env ralb ban bas maxA fuel cands ds

/-- C9: the model of `discover_random_album` is a total function — no
exception escapes, every failure is a returned message — and whenever
every Bandcamp lookup raises, a successful run carries no alternate
link (`bandcamp = none`). -/
theorem C9_bandcamp_error_gives_none :
    ∀ (env : Env) (ba : Option String) (sd : Option WallAlbum) (maxA : Nat)
      (ds : List Nat) (dd : DiscoveryData),
      (∀ a b, env.bandcamp a b = Except.error ()) →
      discover_random_album env ba sd maxA ds = (some dd, none) →
      dd.bandcamp = none := by
  intro env ba sd maxA ds dd hbc h
  obtain ⟨ralb, cands, ds', hloop⟩ := discover_success_loop env ba sd maxA ds dd h
  exact discoverLoop_bandcamp_none env ralb ralb.artist ralb.album_name maxA hbc
    maxA cands ds' dd hloop

/-- C9 witness: a concrete run in which every Bandcamp lookup raises
still succeeds, with no alternate link. -/
theorem C9_witness : dd9.bandcamp = none :=
  C9_bandcamp_error_gives_none env9 none (some seedC1) 8 [] dd9
    (fun _ _ => rfl) rfl

/-- C10: when the candidate filter removes every related artist, the
run does not fail — it re-enters the loop on the shuffled unfiltered
list (first conjunct), and concretely a candidate identical to the
seed artist ("Burzum", filtered out at threshold 90) is still selected
and returned as the discovery. -/
theorem C10_filter_fallback :
    (∀ (env : Env) (ba : Option String) (sd : WallAlbum) (maxA : Nat)
       (ds : List Nat),
      clean_artist_name sd.artist ≠ "" →
      findRelated_code env (clean_artist_name sd.artist) ≠ [] →
      filter_related_artists env.fz
        (findRelated_code env (clean_artist_name sd.artist))
        (clean_artist_name sd.artist) = [] →
      discover_random_album env ba (some sd) maxA ds =
        ((discoverLoop env sd sd.artist sd.album_name maxA
            (pyShuffle ds (findRelated_code env (clean_artist_name sd.artist))).1
            maxA
            (pyShuffle ds (findRelated_code env (clean_artist_name sd.artist))).2).result,
         (discoverLoop env sd sd.artist sd.album_name maxA
            (pyShuffle ds (findRelated_code env (clean_artist_name sd.artist))).1
            maxA
            (pyShuffle ds (findRelated_code env (clean_artist_name sd.artist))).2).err)) ∧
    filter_related_artists fz0 ["Burzum"] "Burzum" = [] ∧
    are_artists_similar fz0 "Burzum" "Burzum" 90 = true ∧
    (discover_random_album env10 none (some seedC1) 8 []).2 = none ∧
    ((discover_random_album env10 none (some seedC1) 8 []).1.map fun d =>
        d.discovery.artist) = some "Burzum" := by
  refine ⟨?_, rfl, rfl, rfl, rfl⟩
  intro env ba sd maxA ds hclean hrel hfil
  simp only [discover_random_album, discoverAfterSeed]
  rw [if_neg hclean, if_neg hrel, if_pos hfil]

/-- C10 witness: the fallback conjunct instantiated at the concrete
run whose filter removes every candidate. -/
theorem C10_witness :
    discover_random_album env10 none (some seedC1) 8 [] =
      ((discoverLoop env10 seedC1 seedC1.artist seedC1.album_name 8
          (pyShuffle [] (findRelated_code env10 (clean_artist_name seedC1.artist))).1
          8
          (pyShuffle [] (findRelated_code env10 (clean_artist_name seedC1.artist))).2).result,
       (discoverLoop env10 seedC1 seedC1.artist seedC1.album_name 8
          (pyShuffle [] (findRelated_code env10 (clean_artist_name seedC1.artist))).1
          8
          (pyShuffle [] (findRelated_code env10 (clean_artist_name seedC1.artist))).2).err) :=
  C10_filter_fallback.1 env10 none seedC1 8 [] (by decide) (by decide) rfl

/-- C5 at the degenerate scorer `fz0` (the results hold for every
scorer). -/
theorem C5_witness :
    are_artists_similar fz0 "Cattle Decapitation" "Decapitation" 90 = false ∧
    are_artists_similar fz0 "Darkthrone" "darkthrone" 85 = true :=
  C5_similarity_guard_cases fz0

/-- C6 amended at the concrete name "The Black Dahlia Murder". -/
theorem C6_witness :
    (∀ c ∈ (normalize_artist_name "The Black Dahlia Murder").data, isNormChar c) ∧
    joinWords (pyWords (normalize_artist_name "The Black Dahlia Murder").data) =
      (normalize_artist_name "The Black Dahlia Murder").data ∧
    pyStrip (normalize_artist_name "The Black Dahlia Murder").data =
      (normalize_artist_name "The Black Dahlia Murder").data ∧
    normalize_artist_name "" = "" :=
  C6_amended_normalizer_shape "The Black Dahlia Murder"
